import Mathlib

/-!
Verification development for the two TAXII threat-intel feed integrations
of this repository: `FeedMitreAttackv2.py` and `FeedUnit42v2.py`.

The Python code is shallowly embedded: JSON-like Python runtime values
become the inductive type `PyVal`, STIX objects become association lists
(`Obj`), and every fallible piece of Python (raised exceptions) becomes an
`Option`/`Except` result, with `Option.none` standing for an uncaught
exception. All definitions are executable; machine evaluation is used to
settle concrete test cases.
-/

/-- Model of a Python runtime value as it occurs in the feed code:
`None`, booleans, integers, strings, lists, and string-keyed dicts
(JSON-shaped data coming out of `json.loads` / the TAXII client). -/
inductive PyVal where
  | vnone : PyVal
  | vbool : Bool → PyVal
  | vint : Int → PyVal
  | vstr : String → PyVal
  | vlist : List PyVal → PyVal
  | vdict : List (String × PyVal) → PyVal

/-- A Python dict with string keys, as an association list (keys are
unique in dicts produced by `json.loads`; lookup takes the first match). -/
abbrev Obj := List (String × PyVal)

mutual

/-- Structural equality of Python values (the `==` used by `in` and by
dict/set membership in the feed code). -/
def pyBeq : PyVal → PyVal → Bool
  | PyVal.vnone, PyVal.vnone => true
  | PyVal.vbool a, PyVal.vbool b => a == b
  | PyVal.vint a, PyVal.vint b => a == b
  | PyVal.vstr a, PyVal.vstr b => a == b
  | PyVal.vlist a, PyVal.vlist b => pyListBeq a b
  | PyVal.vdict a, PyVal.vdict b => pyDictBeq a b
  | _, _ => false

def pyListBeq : List PyVal → List PyVal → Bool
  | [], [] => true
  | a :: as, b :: bs => pyBeq a b && pyListBeq as bs
  | _, _ => false

def pyDictBeq : List (String × PyVal) → List (String × PyVal) → Bool
  | [], [] => true
  | (k1, v1) :: as, (k2, v2) :: bs => k1 == k2 && pyBeq v1 v2 && pyDictBeq as bs
  | _, _ => false

end

/-- Python truthiness (`if x:`): `None`, `False`, `0`, `''`, `[]` and
empty dicts are falsy. -/
def truthy : PyVal → Bool
  | PyVal.vnone => false
  | PyVal.vbool b => b
  | PyVal.vint n => n != 0
  | PyVal.vstr s => s != ""
  | PyVal.vlist l => !l.isEmpty
  | PyVal.vdict d => !d.isEmpty

/-- Python hashability of a value: lists and dicts are unhashable
(`set(...)` / dict keys raise `TypeError` on them). -/
def pyHashable : PyVal → Bool
  | PyVal.vlist _ => false
  | PyVal.vdict _ => false
  | _ => true

/-- Lookup of a string key in a dict, `Option`-valued (`none` = key
absent, which for `d[k]` means `KeyError`). -/
def pyFind : Obj → String → Option PyVal
  | [], _ => Option.none
  | (k, v) :: rest, key => if k = key then some v else pyFind rest key

/-- Python `d.get(k)`: the value under `k`, or `None` when absent. -/
def pyGet (d : Obj) (key : String) : PyVal :=
  match pyFind d key with
  | some v => v
  | Option.none => PyVal.vnone

/-- Python `d.get(k, default)`. -/
def pyGetD (d : Obj) (key : String) (dflt : PyVal) : PyVal :=
  match pyFind d key with
  | some v => v
  | Option.none => dflt

/-- Python `d[k] = v`: replaces the value in place if the key exists,
otherwise appends the new key at the end (insertion order semantics). -/
def dictSet (d : Obj) (key : String) (v : PyVal) : Obj :=
  match d with
  | [] => [(key, v)]
  | (k, w) :: rest => if k = key then (key, v) :: rest else (k, w) :: dictSet rest key v

/-- Python `x in xs` for a list, using Python `==`. -/
def pyContains (xs : List PyVal) (x : PyVal) : Bool :=
  xs.any (fun y => pyBeq y x)

/-- First-occurrence deduplication; models building a `set` from a list
and listing it (CPython iteration order of a set is unspecified, so the
model fixes the first-occurrence order; only the membership matters to
the code under verification). -/
def dedupAux : List PyVal → List PyVal → List PyVal
  | _, [] => []
  | seen, x :: xs =>
    if pyContains seen x then dedupAux seen xs
    else x :: dedupAux (x :: seen) xs

/-- Python `set(v)`: the element list of the resulting set, or `none`
when `v` is not iterable into hashable elements (`TypeError`).
Iterating a string yields its one-character strings. -/
def pySet : PyVal → Option (List PyVal)
  | PyVal.vlist l => if l.all pyHashable then some l else Option.none
  | PyVal.vstr s => some (s.data.map (fun c => PyVal.vstr (String.mk [c])))
  | _ => Option.none

/-- Python `s.split('--')[0]`: the prefix of the character list strictly
before the first occurrence of `--` (the whole list when absent). -/
def firstSegment : List Char → List Char
  | [] => []
  | [c] => [c]
  | c :: c2 :: rest =>
    if c = '-' ∧ c2 = '-' then [] else c :: firstSegment (c2 :: rest)

/-- Python `sub in s` for strings: substring containment. -/
def isSubstring : List Char → List Char → Bool
  | sub, [] => sub.isEmpty
  | sub, c :: rest => sub.isPrefixOf (c :: rest) || isSubstring sub rest

/-- Python `','.join(v)`: requires a list of strings (or a string, joined
character-wise); anything else raises `TypeError`. -/
def pyJoinComma : PyVal → Option String
  | PyVal.vlist l =>
    (l.mapM (fun x => match x with | PyVal.vstr s => some s | _ => Option.none)).map
      (String.intercalate ",")
  | PyVal.vstr s => some (String.intercalate "," (s.data.map (fun c => String.mk [c])))
  | _ => Option.none

/-- Python `str(v)` as used by the report f-string. Flat values are
rendered exactly; the repr of containers is abbreviated (no claim reads
the rendered text of a container-valued report name). -/
def pyStr : PyVal → String
  | PyVal.vnone => "None"
  | PyVal.vbool true => "True"
  | PyVal.vbool false => "False"
  | PyVal.vint n => toString n
  | PyVal.vstr s => s
  | PyVal.vlist _ => "[...]"
  | PyVal.vdict _ => "\x7b...\x7d"

/-- The platform SDK's `EntityRelation` record, kept as a dict of its
constructor arguments (the SDK class itself is an external collaborator). -/
def EntityRelation (name entity_a entity_a_type entity_b entity_b_type : PyVal)
    (fields : Obj) : Obj :=
  [("name", name), ("entity_a", entity_a), ("entity_a_type", entity_a_type),
   ("entity_b", entity_b), ("entity_b_type", entity_b_type),
   ("fields", PyVal.vdict fields)]

/-- The raw source object stored under an output indicator's `rawJSON`. -/
def rawOf (ind : Obj) : Obj :=
  match pyGet ind "rawJSON" with
  | PyVal.vdict d => d
  | _ => []

/-- The source STIX `id` of an output indicator (the `id` of its
`rawJSON`). -/
def rawId (ind : Obj) : PyVal :=
  pyGet (rawOf ind) "id"

/-! ### Model of the Python datetime handling

The feed code parses timestamps with
`datetime.strptime(date, '%Y-%m-%dT%H:%M:%S.%fZ')` and re-renders the
min/max with `strftime('%Y-%m-%dT%H:%M:%S.%f')[:-3] + 'Z'`. -/

/-- A parsed `datetime.datetime` value (naive, microsecond precision). -/
structure PyDateTime where
  year : Nat
  month : Nat
  day : Nat
  hour : Nat
  minute : Nat
  second : Nat
  microsecond : Nat
deriving Repr, DecidableEq

/-- Encoding of a datetime into one natural number, order-isomorphic to
Python's field-lexicographic datetime comparison on the validated
ranges. -/
def PyDateTime.key (d : PyDateTime) : Nat :=
  (((((d.year * 13 + d.month) * 32 + d.day) * 24 + d.hour) * 60 + d.minute) * 60
      + d.second) * 1000000 + d.microsecond

/-- Numeric value of a digit list. -/
def digitsToNat (ds : List Char) : Nat :=
  ds.foldl (fun a c => a * 10 + (c.toNat - 48)) 0

/-- Takes up to `n` leading decimal digits. -/
def takeDigitsUpTo : Nat → List Char → (List Char × List Char)
  | 0, cs => ([], cs)
  | _ + 1, [] => ([], [])
  | n + 1, c :: cs =>
    if c.isDigit then
      let (d, r) := takeDigitsUpTo n cs
      (c :: d, r)
    else ([], c :: cs)

/-- Parses a numeric field of at most `maxLen` digits whose value must
lie in `[lo, hi]` (mirrors the bounded alternations of CPython's
`_strptime` regular expressions followed by `datetime` construction). -/
def parseNumField (maxLen lo hi : Nat) (cs : List Char) : Option (Nat × List Char) :=
  let (ds, rest) := takeDigitsUpTo maxLen cs
  if ds.isEmpty then Option.none
  else
    let v := digitsToNat ds
    if lo ≤ v ∧ v ≤ hi then some (v, rest) else Option.none

/-- Consumes one expected literal character. -/
def expectChar (c : Char) : List Char → Option (List Char)
  | x :: rest => if x = c then some rest else Option.none
  | [] => Option.none

/-- Gregorian leap-year rule used by `datetime` day validation. -/
def isLeapYear (y : Nat) : Bool :=
  (y % 4 == 0 && y % 100 != 0) || (y % 400 == 0)

/-- Days in a month, for `datetime`'s day-of-month validation. -/
def daysInMonth (y m : Nat) : Nat :=
  if m = 2 then (if isLeapYear y then 29 else 28)
  else if m = 4 ∨ m = 6 ∨ m = 9 ∨ m = 11 then 30
  else 31

/-- Model of `datetime.strptime(s, '%Y-%m-%dT%H:%M:%S.%fZ')`: a 4-digit
year (`datetime` requires year ≥ 1), month/day/hour/minute/second fields
of 1-2 digits in their calendar ranges (the leap seconds admitted by the
`_strptime` regex are rejected by `datetime` construction, so seconds are
0-59 net), a 1-6 digit fraction right-padded to microseconds, the literal
separators, and nothing trailing. `none` models the raised `ValueError`. -/
def strptimeIsoMs (s : String) : Option PyDateTime := do
  let cs := s.data
  let (yds, cs) := takeDigitsUpTo 4 cs
  if yds.length ≠ 4 then Option.none
  else do
  let y := digitsToNat yds
  if y = 0 then Option.none
  else do
  let cs ← expectChar '-' cs
  let (mo, cs) ← parseNumField 2 1 12 cs
  let cs ← expectChar '-' cs
  let (d, cs) ← parseNumField 2 1 31 cs
  let cs ← expectChar 'T' cs
  let (h, cs) ← parseNumField 2 0 23 cs
  let cs ← expectChar ':' cs
  let (mi, cs) ← parseNumField 2 0 59 cs
  let cs ← expectChar ':' cs
  let (sec, cs) ← parseNumField 2 0 59 cs
  let cs ← expectChar '.' cs
  let (fds, cs) := takeDigitsUpTo 6 cs
  if fds.isEmpty then Option.none
  else
    let us := digitsToNat fds * 10 ^ (6 - fds.length)
    let cs ← expectChar 'Z' cs
    if cs.isEmpty ∧ d ≤ daysInMonth y mo then
      some ⟨y, mo, d, h, mi, sec, us⟩
    else Option.none

/-- Zero-padded decimal rendering of width `w`. -/
def padZero (w n : Nat) : String :=
  let s := toString n
  String.mk (List.replicate (w - s.length) '0') ++ s

/-- Model of `d.strftime('%Y-%m-%dT%H:%M:%S.%f')`. -/
def strftimeIsoMicro (d : PyDateTime) : String :=
  padZero 4 d.year ++ "-" ++ padZero 2 d.month ++ "-" ++ padZero 2 d.day ++ "T" ++
    padZero 2 d.hour ++ ":" ++ padZero 2 d.minute ++ ":" ++ padZero 2 d.second ++
    "." ++ padZero 6 d.microsecond

/-- Python `min` over a nonempty datetime list (keeps the first minimum,
as `min` only replaces on strictly smaller items). -/
def dtListMin (d : PyDateTime) (ds : List PyDateTime) : PyDateTime :=
  ds.foldl (fun a x => if x.key < a.key then x else a) d

/-- Python `max` over a nonempty datetime list (keeps the first maximum). -/
def dtListMax (d : PyDateTime) (ds : List PyDateTime) : PyDateTime :=
  ds.foldl (fun a x => if a.key < x.key then x else a) d

/-- Python `str.splitlines()` (universal newlines restricted to `\n`,
`\r\n` and `\r`, the forms ISO timestamps can be separated by). -/
def splitlinesAux : List Char → List Char → List (List Char)
  | [], [] => []
  | [], acc => [acc.reverse]
  | '\r' :: '\n' :: rest, acc => acc.reverse :: splitlinesAux rest []
  | '\r' :: rest, acc => acc.reverse :: splitlinesAux rest []
  | '\n' :: rest, acc => acc.reverse :: splitlinesAux rest []
  | c :: rest, acc => splitlinesAux rest (c :: acc)

/-- Python `s.splitlines()`. -/
def pySplitlines (s : String) : List String :=
  (splitlinesAux s.data []).map String.mk

/-- Shared body of the two identical `handle_multiple_dates_in_one_field`
copies: splits the raw value into lines, parses each with
`'%Y-%m-%dT%H:%M:%S.%fZ'`, and renders the minimum for `'created'` and
the maximum otherwise as `strftime('%Y-%m-%dT%H:%M:%S.%f')[:-3] + 'Z'`.
`none` models the uncaught exception on a non-string value, a malformed
date, or an empty line list (`min`/`max` of an empty sequence). -/
def handleMultipleDatesBody (field_name : String) (field_value : PyVal) : Option String :=
  match field_value with
  | PyVal.vstr s =>
    match (pySplitlines s).mapM strptimeIsoMs with
    | some (d :: ds) =>
      if field_name = "created" then
        some ((strftimeIsoMicro (dtListMin d ds)).dropRight 3 ++ "Z")
      else
        some ((strftimeIsoMicro (dtListMax d ds)).dropRight 3 ++ "Z")
    | some [] => Option.none
    | Option.none => Option.none
  | _ => Option.none

namespace Mitre

/-- Embeds `handle_multiple_dates_in_one_field` of `FeedMitreAttackv2.py`
(lines 217-233). -/
def handle_multiple_dates_in_one_field (field_name : String) (field_value : PyVal) :
    Option String :=
  handleMultipleDatesBody field_name field_value

end Mitre

namespace Unit42

/-- Embeds `handle_multiple_dates_in_one_field` of `FeedUnit42v2.py`
(lines 158-174), an exact textual copy of the MITRE one. -/
def handle_multiple_dates_in_one_field (field_name : String) (field_value : PyVal) :
    Option String :=
  handleMultipleDatesBody field_name field_value

end Unit42


namespace Mitre

/-- Embeds the constant `MITRE_TYPE_TO_DEMISTO_TYPE` of
`FeedMitreAttackv2.py` (lines 12-19). -/
def MITRE_TYPE_TO_DEMISTO_TYPE : List (String × String) :=
  [("attack-pattern", "STIX Attack Pattern"),
   ("course-of-action", "Course of Action"),
   ("intrusion-set", "Intrusion Set"),
   ("malware", "STIX Malware"),
   ("tool", "STIX Tool"),
   ("relationship", "Relationship")]

/-- Embeds the constant `INDICATOR_TYPE_TO_SCORE` (lines 21-27). -/
def INDICATOR_TYPE_TO_SCORE : List (String × Int) :=
  [("Intrusion Set", 3),
   ("Attack Pattern", 2),
   ("Course of Action", 0),
   ("Malware", 3),
   ("Tool", 2)]

/-- Python `MITRE_TYPE_TO_DEMISTO_TYPE.get(v)`: `None` on a missing or
non-string key. -/
def mitreTypeGet (v : PyVal) : PyVal :=
  match v with
  | PyVal.vstr s =>
    match MITRE_TYPE_TO_DEMISTO_TYPE.lookup s with
    | some t => PyVal.vstr t
    | Option.none => PyVal.vnone
  | _ => PyVal.vnone

/-- Python `INDICATOR_TYPE_TO_SCORE.get(v)`. -/
def scoreGet (v : PyVal) : PyVal :=
  match v with
  | PyVal.vstr s =>
    match INDICATOR_TYPE_TO_SCORE.lookup s with
    | some n => PyVal.vint n
    | Option.none => PyVal.vnone
  | _ => PyVal.vnone

/-- Embeds `is_indicator_deprecated_or_revoked` (lines 145-146): truthy
`x_mitre_deprecated` or truthy `revoked`. -/
def is_indicator_deprecated_or_revoked (indicator_json : Obj) : Bool :=
  truthy (pyGet indicator_json "x_mitre_deprecated") ||
    truthy (pyGet indicator_json "revoked")

/-- One step of the `external_references` publications loop of
`map_fields_by_type` (lines 154-160): an entry must be a dict
(otherwise `.get` raises); a truthy `external_id` skips the entry, any
other entry is reshaped to its Link/Title pair. -/
def publicationEntry : PyVal → Option (Option PyVal)
  | PyVal.vdict d =>
    if truthy (pyGet d "external_id") then some Option.none
    else some (some (PyVal.vdict [("Link", pyGet d "url"), ("Title", pyGet d "description")]))
  | _ => Option.none

/-- The publications loop over a list value. -/
def publicationsLoop : List PyVal → Option (List PyVal)
  | [] => some []
  | r :: rest => do
    let e ← publicationEntry r
    let ps ← publicationsLoop rest
    match e with
    | some p => some (p :: ps)
    | Option.none => some ps

/-- Embeds the publications construction of `map_fields_by_type`
(lines 154-160): iterates `external_references` (must be a list;
iterating anything else raises). -/
def buildPublications : PyVal → Option (List PyVal)
  | PyVal.vlist refs => publicationsLoop refs
  | _ => Option.none

/-- The per-type dict literal `mapping_by_type` of `map_fields_by_type`
(lines 169-187), already applied to the lookup `mapping_by_type.get`
(line 189): `none` is the `None` that a missing indicator type yields. -/
def mappingByTypeGet (indicator_type : PyVal) (indicator_json : Obj)
    (mitre_platform : String) : Option Obj :=
  match indicator_type with
  | PyVal.vstr "STIX Attack Pattern" =>
    some [("operatingsystemrefs", PyVal.vstr mitre_platform)]
  | PyVal.vstr "Intrusion Set" =>
    some [("aliases", pyGet indicator_json "aliases")]
  | PyVal.vstr "STIX Malware" =>
    some [("tags", pyGet indicator_json "labels"),
          ("aliases", pyGet indicator_json "x_mitre_aliases"),
          ("operatingsystemrefs", PyVal.vstr mitre_platform)]
  | PyVal.vstr "STIX Tool" =>
    some [("tags", pyGet indicator_json "labels"),
          ("aliases", pyGet indicator_json "x_mitre_aliases"),
          ("operatingsystemrefs", PyVal.vstr mitre_platform)]
  | _ => Option.none

/-- Embeds `map_fields_by_type` (lines 149-190). The `none` result models
the uncaught exception raised on an unparsable date field, a non-string
`x_mitre_platforms` join, a malformed `external_references` entry, or
`generic_mapping_fields.update(None)` when the indicator type has no
entry in `mapping_by_type` (`dict.update(None)` raises `TypeError`). -/
def map_fields_by_type (indicator_type : PyVal) (indicator_json : Obj) : Option Obj := do
  let created ← handle_multiple_dates_in_one_field "created" (pyGet indicator_json "created")
  let modified ← handle_multiple_dates_in_one_field "modified" (pyGet indicator_json "modified")
  let mitre_platform ← pyJoinComma (pyGet indicator_json "x_mitre_platforms")
  let publications ← buildPublications (pyGetD indicator_json "external_references" (PyVal.vlist []))
  let generic_mapping_fields : Obj :=
    [("stixid", pyGet indicator_json "id"),
     ("firstseenbysource", PyVal.vstr created),
     ("modified", PyVal.vstr modified),
     ("description", pyGet indicator_json "description"),
     ("publications", PyVal.vlist publications)]
  match mappingByTypeGet indicator_type indicator_json mitre_platform with
  | Option.none => Option.none
  | some m => some (m.foldl (fun acc kv => dictSet acc kv.1 kv.2) generic_mapping_fields)

/-- Embeds `create_relationship` (lines 193-214). Both refs must be
strings (`.split` on `None` raises, modelled as `none`); the entity
types are the `MITRE_TYPE_TO_DEMISTO_TYPE.get` of the substring before
the first `--`. -/
def create_relationship (item_json : Obj) : Option Obj :=
  match pyGet item_json "source_ref", pyGet item_json "target_ref" with
  | PyVal.vstr src, PyVal.vstr tgt =>
    let a_type := mitreTypeGet (PyVal.vstr (String.mk (firstSegment src.data)))
    let b_type := mitreTypeGet (PyVal.vstr (String.mk (firstSegment tgt.data)))
    some (EntityRelation (pyGet item_json "relationship_type")
      (PyVal.vstr src) a_type (PyVal.vstr tgt) b_type
      [("description", pyGet item_json "description"),
       ("lastseenbysource", pyGet item_json "modified"),
       ("firstseenbysource", pyGet item_json "created")])
  | _, _ => Option.none

/-- The outcome of the six per-collection TAXII queries of
`build_iterator` (lines 86-101), in the iteration order of the
`filter_objs` dict: attack-pattern, course-of-action, intrusion-set,
malware, tool, relationship. Each query either returns its object list
or raises (`Except.error`), which the code catches and skips. -/
structure MitreCollection where
  techniques : Except Unit (List Obj)
  mitigations : Except Unit (List Obj)
  groups : Except Unit (List Obj)
  malwareObjs : Except Unit (List Obj)
  toolObjs : Except Unit (List Obj)
  relationshipObjs : Except Unit (List Obj)

/-- The query results of one collection in `filter_objs` order. -/
def MitreCollection.queries (c : MitreCollection) : List (Except Unit (List Obj)) :=
  [c.techniques, c.mitigations, c.groups, c.malwareObjs, c.toolObjs, c.relationshipObjs]

/-- The accumulating state of one `build_iterator` run: the `indicators`
list, the `relationships_list`, the `mitre_id_list` dedup set (kept as a
duplicate-free list) and the `counter` compared against the limit. -/
structure MitreState where
  indicators : List Obj
  relationships : List Obj
  mitre_id_list : List PyVal
  counter : Nat

/-- Python `0 < limit <= counter`. -/
def hitLimit (limit : Int) (counter : Nat) : Bool :=
  0 < limit && limit ≤ (counter : Int)

/-- Embeds the `fields` mutation
`indicator_obj['fields']['tags'].append(self.tags)` (line 131): requires
a `tags` key holding a list (`KeyError`/`AttributeError` otherwise) and
appends the client's tag list as a single element. -/
def appendTagsField (fields : Obj) (tags : List PyVal) : Option Obj :=
  match pyFind fields "tags" with
  | some (PyVal.vlist l) => some (dictSet fields "tags" (PyVal.vlist (l ++ [PyVal.vlist tags])))
  | _ => Option.none

/-- Embeds lines 132-133: a truthy `tlp_color` is written into the
fields. -/
def applyTlp (tlp : Option String) (fields : Obj) : Obj :=
  match tlp with
  | some c => if c = "" then fields else dictSet fields "trafficlightprotocol" (PyVal.vstr c)
  | Option.none => fields

/-- Embeds the body of the `for mitre_item in mitre_data` loop of
`build_iterator` (lines 109-137) for one item (the limit break lives in
the list recursion): dedup on `id`, relationship handling with the
`revoked-by` skip, the deprecated/revoked skip, and indicator assembly.
`none` models an uncaught exception while building. -/
def processItem (tags : List PyVal) (tlp : Option String) (st : MitreState) (item : Obj) :
    Option MitreState :=
  if pyContains st.mitre_id_list (pyGet item "id") then some st
  else
    let value := pyGet item "name"
    let indicator_type := mitreTypeGet (pyGet item "type")
    if pyBeq indicator_type (PyVal.vstr "Relationship") then
      if pyBeq (pyGet item "relationship_type") (PyVal.vstr "revoked-by") then some st
      else
        match create_relationship item with
        | Option.none => Option.none
        | some rel =>
          some { st with relationships := st.relationships ++ [rel],
                         mitre_id_list := st.mitre_id_list ++ [pyGet item "id"] }
    else
      if is_indicator_deprecated_or_revoked item then some st
      else
        let indicator_score := scoreGet indicator_type
        match map_fields_by_type indicator_type item with
        | Option.none => Option.none
        | some fields0 =>
          match appendTagsField fields0 tags with
          | Option.none => Option.none
          | some fields1 =>
            let fields2 := applyTlp tlp fields1
            let ind : Obj :=
              [("value", value), ("score", indicator_score), ("type", indicator_type),
               ("rawJSON", PyVal.vdict item), ("fields", PyVal.vdict fields2)]
            some { st with indicators := st.indicators ++ [ind],
                           counter := st.counter + 1,
                           mitre_id_list := st.mitre_id_list ++ [pyGet item "id"] }

/-- The `for mitre_item in mitre_data` loop with its limit break
(lines 105-107). -/
def processItems (tags : List PyVal) (tlp : Option String) (limit : Int) :
    MitreState → List Obj → Option MitreState
  | st, [] => some st
  | st, item :: rest =>
    if hitLimit limit st.counter then some st
    else
      match processItem tags tlp st item with
      | Option.none => Option.none
      | some st2 => processItems tags tlp limit st2 rest

/-- The `for concept in filter_objs` loop (lines 95-103) over the six
query outcomes: the limit break at the top, and the
`try: ... except Exception: continue` that silently skips a failed
query. -/
def processQueries (tags : List PyVal) (tlp : Option String) (limit : Int) :
    MitreState → List (Except Unit (List Obj)) → Option MitreState
  | st, [] => some st
  | st, q :: rest =>
    if hitLimit limit st.counter then some st
    else
      match q with
      | Except.error _ => processQueries tags tlp limit st rest
      | Except.ok objs =>
        match processItems tags tlp limit st objs with
        | Option.none => Option.none
        | some st2 => processQueries tags tlp limit st2 rest

/-- The `for collection in self.collections` loop (lines 73-77). -/
def processCollections (tags : List PyVal) (tlp : Option String) (limit : Int) :
    MitreState → List MitreCollection → Option MitreState
  | st, [] => some st
  | st, c :: rest =>
    if hitLimit limit st.counter then some st
    else
      match processQueries tags tlp limit st c.queries with
      | Option.none => Option.none
      | some st2 => processCollections tags tlp limit st2 rest

/-- Embeds `Client.build_iterator` (lines 61-142) with the TAXII layer
abstracted into per-collection query outcomes. The trailing step is the
literal line 140: `indicators[0]['relationships'] = ['relationships_list']`
(a list holding that string). `none` models an uncaught exception. -/
def build_iterator (tags : List PyVal) (tlp : Option String)
    (collections : List MitreCollection) (limit : Int) : Option (List Obj) :=
  match processCollections tags tlp limit ⟨[], [], [], 0⟩ collections with
  | Option.none => Option.none
  | some st =>
    match st.indicators with
    | [] => some []
    | f :: rest =>
      some (dictSet f "relationships" (PyVal.vlist [PyVal.vstr "relationships_list"]) :: rest)

end Mitre

namespace Unit42

/-- Embeds the constant `UNIT42_TYPES_TO_DEMISTO_TYPES` of
`FeedUnit42v2.py` (lines 11-21); the `FeedIndicatorType` members are the
platform SDK's standard indicator type names. -/
def UNIT42_TYPES_TO_DEMISTO_TYPES : List (String × String) :=
  [("ipv4-addr", "IP"),
   ("ipv6-addr", "IPv6"),
   ("domain", "Domain"),
   ("domain-name", "Domain"),
   ("url", "URL"),
   ("md5", "File"),
   ("sha-1", "File"),
   ("sha-256", "File"),
   ("file:hashes", "File")]

/-- Embeds the constant `RELATIONS_TYPE_TO_DEMISTO_TYPES` (lines 23-31);
note it has no `intrusion-set` entry. -/
def RELATIONS_TYPE_TO_DEMISTO_TYPES : List (String × String) :=
  [("campaign", "Campaign"),
   ("attack-pattern", "Attack Pattern"),
   ("report", "Report"),
   ("indicator", "Indicator"),
   ("malware", "Malware"),
   ("course-of-action", "Course of Action")]

/-- Python `RELATIONS_TYPE_TO_DEMISTO_TYPES.get(s)` on a string key. -/
def relationsTypeGet (s : String) : PyVal :=
  match RELATIONS_TYPE_TO_DEMISTO_TYPES.lookup s with
  | some t => PyVal.vstr t
  | Option.none => PyVal.vnone

/-- Embeds `Client.fetch_stix_objects_from_api` (lines 57-76) for one
object type, with the TAXII layer abstracted into the outcomes of the
paged per-collection retrievals across all API roots, in order. The
method has no exception handling: a raised retrieval error propagates
(`Except.error`), it is neither caught nor skipped; on success the
bundle objects are concatenated into one `data` list. -/
def fetch_stix_objects_from_api : List (Except Unit (List Obj)) → Except Unit (List Obj)
  | [] => Except.ok []
  | Except.error e :: _ => Except.error e
  | Except.ok objs :: rest =>
    match fetch_stix_objects_from_api rest with
    | Except.error e => Except.error e
    | Except.ok data => Except.ok (objs ++ data)

/-- The `list(set(labels).union(set(feed_tags)))` tag construction shared
by `parse_indicators` (line 101) and `parse_reports` (line 138):
`TypeError` (`none`) when either side is not iterable into hashable
elements; the resulting set is listed in first-occurrence order (CPython
leaves set order unspecified). -/
def tagsUnion (labels : PyVal) (feed_tags : List PyVal) : Option (List PyVal) := do
  let ls ← pySet labels
  if (feed_tags.all pyHashable) = false then Option.none
  else some (dedupAux [] (ls ++ feed_tags))

/-- The indicator dict built by `parse_indicators` (lines 94-108) for one
matched type key. -/
def indicatorFor (indicator_object : Obj) (demisto_type : String) (tags : List PyVal)
    (tlp_color : Option String) : Obj :=
  let fields : Obj :=
    [("firstseenbysource", pyGet indicator_object "created"),
     ("indicatoridentification", pyGet indicator_object "id"),
     ("tags", PyVal.vlist tags),
     ("modified", pyGet indicator_object "modified"),
     ("reportedby", PyVal.vstr "Unit42")]
  let fields :=
    match tlp_color with
    | some c => if c = "" then fields else dictSet fields "trafficlightprotocol" (PyVal.vstr c)
    | Option.none => fields
  [("value", pyGet indicator_object "name"),
   ("type", PyVal.vstr demisto_type),
   ("rawJSON", PyVal.vdict indicator_object),
   ("fields", PyVal.vdict fields)]

/-- The inner `for key in UNIT42_TYPES_TO_DEMISTO_TYPES.keys()` loop of
`parse_indicators` (lines 92-110): every key whose `[key` prefix matches
the pattern appends one indicator (there is no break and no dedup). -/
def matchedIndicators (indicator_object : Obj) (pattern : String) (tags : List PyVal)
    (tlp_color : Option String) : List Obj :=
  (UNIT42_TYPES_TO_DEMISTO_TYPES.filter
      (fun kv => ("[" ++ kv.1).data.isPrefixOf pattern.data)).map
    (fun kv => indicatorFor indicator_object kv.2 tags tlp_color)

end Unit42

namespace Unit42

/-- Embeds `parse_indicators` (lines 79-112). Per object: `pattern` must
be a string (`.startswith` on `None` raises), the tag set union must
succeed, and every matching type key contributes one indicator, in key
order. There is no deduplication of any kind. -/
def parse_indicators (indicator_objects : List Obj) (feed_tags : List PyVal)
    (tlp_color : Option String) : Option (List Obj) :=
  match indicator_objects with
  | [] => some []
  | indicator_object :: rest => do
    let tail ← parse_indicators rest feed_tags tlp_color
    match pyGet indicator_object "pattern" with
    | PyVal.vstr pattern =>
      let tags ← tagsUnion (pyGet indicator_object "labels") feed_tags
      some (matchedIndicators indicator_object pattern tags tlp_color ++ tail)
    | _ => Option.none

/-- Embeds `parse_reports` (lines 115-155). -/
def parse_reports (report_objects : List Obj) (feed_tags : List PyVal)
    (tlp_color : Option String) : Option (List Obj) :=
  match report_objects with
  | [] => some []
  | report_object :: rest => do
    let tail ← parse_reports rest feed_tags tlp_color
    let tags ← tagsUnion (pyGet report_object "labels") feed_tags
    let fields : Obj :=
      [("stixid", pyGet report_object "id"),
       ("published", pyGet report_object "published"),
       ("stixdescription", pyGetD report_object "description" (PyVal.vstr "")),
       ("reportedby", PyVal.vstr "Unit42"),
       ("tags", PyVal.vlist tags)]
    let fields :=
      match tlp_color with
      | some c => if c = "" then fields else dictSet fields "trafficlightprotocol" (PyVal.vstr c)
      | Option.none => fields
    let report : Obj :=
      [("type", PyVal.vstr "STIX Report"),
       ("value", PyVal.vstr ("[Unit42 ATOM] " ++ pyStr (pyGet report_object "name"))),
       ("fields", PyVal.vdict fields),
       ("rawJSON", PyVal.vdict
         [("unit42_id", pyGet report_object "id"),
          ("unit42_labels", pyGet report_object "labels"),
          ("unit42_published", pyGet report_object "published"),
          ("unit42_created_date", pyGet report_object "created"),
          ("unit42_modified_date", pyGet report_object "modified"),
          ("unit42_description", pyGet report_object "description"),
          ("unit42_object_refs", pyGet report_object "object_refs")])]
    some (report :: tail)

end Unit42

namespace Unit42

/-- Model of the platform SDK's `tableToMarkdown` renderer, an external
collaborator of `create_course_of_action_field` (lines 263-264); its
exact markdown text is outside this repository, so it is modelled as a
deterministic function of the table name, the row dicts and the headers. -/
def tableToMarkdown (name : String) (rows : List Obj) (headers : List String) : String :=
  name ++ "|" ++ String.intercalate "," headers ++ "|" ++ toString rows.length

/-- The constant `COURSE_OF_ACTION_U42` (line 33). -/
def COURSE_OF_ACTION_U42 : List String := ["Cortex XDR Prevent", "DNS Security", "XSOAR"]

/-- The constant `COURSE_OF_ACTION_BP` (line 34). -/
def COURSE_OF_ACTION_BP : List String :=
  ["URL Filtering", "NGFW", "Wildfire", "Threat Prevention"]

/-- The constant `COURSE_OF_ACTION_HEADERS` (lines 35-36). -/
def COURSE_OF_ACTION_HEADERS : List String :=
  ["name", "title", "description", "impact statement", "recommendation number",
   "remediation procedure"]

/-- One row of `create_course_of_action_field` (lines 246-261): the
element iterated from `courses_list` must be a dict (`.get` on anything
else raises). -/
def coaRow (relationship_product : PyVal) (course_of_action : PyVal) : Option Obj :=
  match course_of_action with
  | PyVal.vdict c =>
    let row : Obj := []
    let row :=
      match relationship_product with
      | PyVal.vstr p =>
        if COURSE_OF_ACTION_U42.contains p then
          dictSet (dictSet row "title" (pyGet c "x_panw_coa_u42_title"))
            "description" (pyGet c "description")
        else row
      | _ => row
    let row :=
      match relationship_product with
      | PyVal.vstr p =>
        if COURSE_OF_ACTION_BP.contains p then
          dictSet (dictSet (dictSet (dictSet (dictSet row
            "title" (pyGet c "x_panw_coa_bp_title"))
            "impact statement" (pyGet c "x_panw_coa_bp_impact_statement"))
            "recommendation number" (pyGet c "x_panw_coa_bp_recommendation_number"))
            "description" (pyGet c "x_panw_coa_bp_description"))
            "remediation procedure" (pyGet c "x_panw_coa_bp_remediation_procedure")
        else row
      | _ => row
    some (dictSet row "name" (pyGet c "name"))
  | _ => Option.none

/-- Iterates `for course_of_action in courses_list` (line 246): a list
iterates its elements, a string its one-character strings, anything else
raises. -/
def coaRows (relationship_product : PyVal) (courses_list : PyVal) : Option (List Obj) :=
  match courses_list with
  | PyVal.vlist l => l.mapM (coaRow relationship_product)
  | PyVal.vstr s =>
    (s.data.map (fun ch => PyVal.vstr (String.mk [ch]))).mapM (coaRow relationship_product)
  | _ => Option.none

/-- Embeds `create_course_of_action_field` (lines 232-266) over the
`courses_of_action` dict in insertion order. -/
def create_course_of_action_field (courses_of_action : List (PyVal × PyVal)) :
    Option String :=
  if courses_of_action.isEmpty then some "No courses of action found."
  else
    (courses_of_action.mapM (fun (kv : PyVal × PyVal) => do
        let rows ← coaRows kv.1 kv.2
        some (tableToMarkdown (pyStr kv.1) rows COURSE_OF_ACTION_HEADERS))).map
      (fun (tables : List String) => tables.foldl (fun md t => md ++ "\n" ++ t) "")

/-- Python `d[k] = v` on a `PyVal`-keyed dict (overwrite in place,
append new keys at the end). -/
def assocSet (d : List (PyVal × PyVal)) (k v : PyVal) : List (PyVal × PyVal) :=
  match d with
  | [] => [(k, v)]
  | (k0, v0) :: rest =>
    if pyBeq k0 k then (k0, v) :: rest else (k0, v0) :: assocSet rest k v

/-- Python `d.get(k)` on a `PyVal`-keyed dict. -/
def assocGet (d : List (PyVal × PyVal)) (k : PyVal) : PyVal :=
  match d.find? (fun kv => pyBeq kv.1 k) with
  | some kv => kv.2
  | Option.none => PyVal.vnone

/-- The `courses_of_action` dict built at the top of
`create_attack_pattern_indicator` (lines 184-195): for every
relationship whose `source_ref` starts with `course-of-action`, maps the
source ref to `x_panw_coa_u42_panw_product[0]` when that value is truthy
and to `'No product'` otherwise. `source_ref` must be a string and a
truthy product must be indexable (`[0]`). -/
def buildCoursesOfActionAux (acc : List (PyVal × PyVal)) :
    List Obj → Option (List (PyVal × PyVal))
  | [] => some acc
  | relationship :: rest =>
    match pyGet relationship "source_ref" with
    | PyVal.vstr source =>
      if "course-of-action".data.isPrefixOf source.data then
        let product := pyGetD relationship "x_panw_coa_u42_panw_product" (PyVal.vlist [])
        if truthy product then
          match product with
          | PyVal.vlist (p0 :: _) =>
            buildCoursesOfActionAux (assocSet acc (PyVal.vstr source) p0) rest
          | PyVal.vstr s =>
            match s.data with
            | ch :: _ =>
              buildCoursesOfActionAux
                (assocSet acc (PyVal.vstr source) (PyVal.vstr (String.mk [ch]))) rest
            | [] => Option.none
          | _ => Option.none
        else
          buildCoursesOfActionAux (assocSet acc (PyVal.vstr source) (PyVal.vstr "No product"))
            rest
      else buildCoursesOfActionAux acc rest
    | _ => Option.none

/-- The `for relationship in relationships` loop in source order (later
relationships overwrite earlier ones for the same source ref, as in a
Python dict assignment). -/
def buildCoursesOfAction (relationships : List Obj) : Option (List (PyVal × PyVal)) :=
  buildCoursesOfActionAux [] relationships

end Unit42

namespace Unit42

/-- One step of the `external_references` publications loop of
`create_attack_pattern_indicator` (lines 202-208), the Unit42 copy of
the MITRE loop: an entry must be a dict, a truthy `external_id` skips
it, any other entry becomes its Link/Title pair. -/
def publicationEntry : PyVal → Option (Option PyVal)
  | PyVal.vdict d =>
    if truthy (pyGet d "external_id") then some Option.none
    else some (some (PyVal.vdict [("Link", pyGet d "url"), ("Title", pyGet d "description")]))
  | _ => Option.none

/-- The Unit42 publications loop over a list value. -/
def publicationsLoop : List PyVal → Option (List PyVal)
  | [] => some []
  | r :: rest => do
    let e ← publicationEntry r
    let ps ← publicationsLoop rest
    match e with
    | some p => some (p :: ps)
    | Option.none => some ps

/-- The publications construction of `create_attack_pattern_indicator`
(lines 202-208): iterates `external_references` (must be a list). -/
def buildPublications : PyVal → Option (List PyVal)
  | PyVal.vlist refs => publicationsLoop refs
  | _ => Option.none

/-- The body of the `for attack_indicator in attack_indicator_objects`
loop of `create_attack_pattern_indicator` (lines 200-228): the
publications loop, the date folding, the course-of-action markdown and
the indicator dict. -/
def attackPatternIndicator (courses_of_action : List (PyVal × PyVal))
    (feed_tags : List PyVal) (tlp_color : Option String) (attack_indicator : Obj) :
    Option Obj := do
  let publications ← buildPublications
    (pyGetD attack_indicator "external_references" (PyVal.vlist []))
  let firstseen ← handle_multiple_dates_in_one_field "created" (pyGet attack_indicator "created")
  let modified ← handle_multiple_dates_in_one_field "modified" (pyGet attack_indicator "modified")
  let coaField ← create_course_of_action_field courses_of_action
  let fields : Obj :=
    [("stixid", pyGet attack_indicator "id"),
     ("firstseenbysource", PyVal.vstr firstseen),
     ("modified", PyVal.vstr modified),
     ("description", pyGet attack_indicator "description"),
     ("operatingsystemrefs", pyGet attack_indicator "x_mitre_platforms"),
     ("mitrecourseofaction", PyVal.vstr coaField),
     ("publications", PyVal.vlist publications),
     ("reportedby", PyVal.vstr "Unit42"),
     ("tags", PyVal.vlist feed_tags)]
  let fields :=
    match tlp_color with
    | some c => if c = "" then fields else dictSet fields "trafficlightprotocol" (PyVal.vstr c)
    | Option.none => fields
  some [("value", pyGet attack_indicator "name"),
        ("type", PyVal.vstr "Attack Pattern"),
        ("fields", PyVal.vdict fields)]

/-- The `for attack_indicator in attack_indicator_objects` loop itself. -/
def attackPatternLoop (courses_of_action : List (PyVal × PyVal)) (feed_tags : List PyVal)
    (tlp_color : Option String) : List Obj → Option (List Obj)
  | [] => some []
  | attack_indicator :: rest => do
    let ind ← attackPatternIndicator courses_of_action feed_tags tlp_color attack_indicator
    let tail ← attackPatternLoop courses_of_action feed_tags tlp_color rest
    some (ind :: tail)

/-- Embeds `create_attack_pattern_indicator` (lines 177-229), with the
client's fetched `objects_data` passed explicitly. -/
def create_attack_pattern_indicator (relationshipObjs attackPatternObjs : List Obj)
    (feed_tags : List PyVal) (tlp_color : Option String) : Option (List Obj) := do
  let courses_of_action ← buildCoursesOfAction relationshipObjs
  attackPatternLoop courses_of_action feed_tags tlp_color attackPatternObjs

/-- Embeds `get_ioc_type` (lines 269-277): looks the ref up in
`id_to_object`, reads its `pattern` (both must succeed or `.get` raises),
and returns the Demisto type of the first `UNIT42_TYPES_TO_DEMISTO_TYPES`
key occurring as a substring of the pattern, or `''`. -/
def get_ioc_type (indicator : PyVal) (id_to_object : List (PyVal × PyVal)) : Option PyVal :=
  match assocGet id_to_object indicator with
  | PyVal.vdict indicator_obj =>
    match pyGet indicator_obj "pattern" with
    | PyVal.vstr pattern =>
      match UNIT42_TYPES_TO_DEMISTO_TYPES.find?
          (fun kv => isSubstring kv.1.data pattern.data) with
      | some kv => some (PyVal.vstr kv.2)
      | Option.none => some (PyVal.vstr "")
    | _ => Option.none
  | _ => Option.none

/-- The per-ref entity-type resolution of `create_list_relationships`
(lines 284-292): the `RELATIONS_TYPE_TO_DEMISTO_TYPES.get` of the
substring before the first `--`, re-typed through `get_ioc_type` when
that mapped type is `'Indicator'`. -/
def resolveRefType (id_to_object : List (PyVal × PyVal)) (ref : String) : Option PyVal :=
  let t0 := relationsTypeGet (String.mk (firstSegment ref.data))
  if pyBeq t0 (PyVal.vstr "Indicator") then get_ioc_type (PyVal.vstr ref) id_to_object
  else some t0

/-- One iteration of `create_list_relationships` (lines 283-305): both
refs must be strings (`.split` raises otherwise). -/
def relationshipFor (id_to_object : List (PyVal × PyVal)) (relationships_object : Obj) :
    Option Obj := do
  match pyGet relationships_object "source_ref", pyGet relationships_object "target_ref" with
  | PyVal.vstr src, PyVal.vstr tgt =>
    let a_type ← resolveRefType id_to_object src
    let b_type ← resolveRefType id_to_object tgt
    some (EntityRelation (pyGet relationships_object "relationship_type")
      (PyVal.vstr src) a_type (PyVal.vstr tgt) b_type
      [("lastseenbysource", pyGet relationships_object "modified"),
       ("firstseenbysource", pyGet relationships_object "created")])
  | _, _ => Option.none

/-- Embeds `create_list_relationships` (lines 280-306): the
relationship-building loop in order. -/
def create_list_relationships (relationshipObjs : List Obj)
    (id_to_object : List (PyVal × PyVal)) : Option (List Obj) :=
  match relationshipObjs with
  | [] => some []
  | relationships_object :: rest => do
    let entity_relation ← relationshipFor id_to_object relationships_object
    let tail ← create_list_relationships rest id_to_object
    some (entity_relation :: tail)

/-- The per-type object lists held in `client.objects_data` after
`get_stix_objects` fetched the seven item types of `fetch_indicators`
(lines 333-335). -/
structure ObjectsData where
  report : List Obj
  indicator : List Obj
  malware : List Obj
  campaign : List Obj
  attackPattern : List Obj
  relationship : List Obj
  courseOfAction : List Obj

/-- The `id_to_object` dict comprehension of `fetch_indicators`
(lines 346-351): keyed by each object's `id` over the six listed types in
order (later duplicates overwrite); an unhashable `id` raises. -/
def buildIdToObjectAux (acc : List (PyVal × PyVal)) : List Obj → Option (List (PyVal × PyVal))
  | [] => some acc
  | obj :: rest =>
    if pyHashable (pyGet obj "id") then
      buildIdToObjectAux (assocSet acc (pyGet obj "id") (PyVal.vdict obj)) rest
    else Option.none

/-- The comprehension in iteration order (later objects with the same
`id` overwrite earlier ones). -/
def buildIdToObject (objs : List Obj) : Option (List (PyVal × PyVal)) :=
  buildIdToObjectAux [] objs

/-- Embeds `fetch_indicators` (lines 321-369) after the network fetch:
parses indicators and reports, builds attack-pattern indicators, and when
`create_relationships` is set appends to the parsed-indicator list a
single dummy indicator `$$DummyIndicator$$` carrying the whole built
relationship list; the final output is
`indicators + reports + attack_pattern_indicators`. -/
def fetch_indicators (od : ObjectsData) (feed_tags : List PyVal)
    (tlp_color : Option String) (create_relationships : Bool) : Option (List Obj) := do
  let indicators ← parse_indicators od.indicator feed_tags tlp_color
  let reports ← parse_reports od.report feed_tags tlp_color
  let attack_pattern_indicators ←
    create_attack_pattern_indicator od.relationship od.attackPattern feed_tags tlp_color
  let id_to_object ← buildIdToObject
    (od.report ++ od.indicator ++ od.malware ++ od.campaign ++ od.attackPattern ++
      od.courseOfAction)
  let indicators ←
    if create_relationships then do
      let list_relationships ← create_list_relationships od.relationship id_to_object
      some (indicators ++
        [[("value", PyVal.vstr "$$DummyIndicator$$"),
          ("relationships", PyVal.vlist (list_relationships.map PyVal.vdict))]])
    else some indicators
  some (indicators ++ reports ++ attack_pattern_indicators)

end Unit42

/-- Spec-side definition for the publications property: the entries of
`external_references` lacking a (truthy) `external_id`, reshaped in
order into their Link/Title pairs. -/
def publicationsSpec (refs : List Obj) : List PyVal :=
  (refs.filter (fun r => !truthy (pyGet r "external_id"))).map
    (fun r => PyVal.vdict [("Link", pyGet r "url"), ("Title", pyGet r "description")])

/-! ### Concrete input fixtures used by witnesses and counterexamples -/

/-- A well-formed STIX malware object (the only MITRE object types the
indicator assembly survives are `malware` and `tool`). -/
def fxMalware : Obj :=
  [("type", PyVal.vstr "malware"), ("id", PyVal.vstr "malware--1"),
   ("name", PyVal.vstr "M"), ("created", PyVal.vstr "2020-01-01T00:00:00.000Z"),
   ("modified", PyVal.vstr "2020-01-02T00:00:00.000Z"),
   ("labels", PyVal.vlist [PyVal.vstr "lab"]),
   ("x_mitre_platforms", PyVal.vlist [PyVal.vstr "Windows"])]

/-- A revoked STIX malware object. -/
def fxRevoked : Obj :=
  [("type", PyVal.vstr "malware"), ("id", PyVal.vstr "malware--0"),
   ("name", PyVal.vstr "D"), ("revoked", PyVal.vbool true)]

/-- A course-of-action object (minimal). -/
def fxCoa : Obj :=
  [("type", PyVal.vstr "course-of-action"), ("id", PyVal.vstr "coa--1")]

/-- One MITRE collection whose malware query returns the revoked object
followed by the well-formed one; the other queries return nothing. -/
def fxColl : Mitre.MitreCollection :=
  ⟨Except.ok [], Except.ok [], Except.ok [], Except.ok [fxRevoked, fxMalware],
   Except.ok [], Except.ok []⟩

/-- The fresh `build_iterator` state. -/
def fxState : Mitre.MitreState := ⟨[], [], [], 0⟩

/-- The indicator that `build_iterator` emits for `fxMalware` (with the
head `relationships` literal of line 140 applied). -/
def fxMalwareIndicator : Obj :=
  [("value", PyVal.vstr "M"), ("score", PyVal.vnone), ("type", PyVal.vstr "STIX Malware"),
   ("rawJSON", PyVal.vdict fxMalware),
   ("fields", PyVal.vdict
     [("stixid", PyVal.vstr "malware--1"),
      ("firstseenbysource", PyVal.vstr "2020-01-01T00:00:00.000Z"),
      ("modified", PyVal.vstr "2020-01-02T00:00:00.000Z"),
      ("description", PyVal.vnone),
      ("publications", PyVal.vlist []),
      ("tags", PyVal.vlist [PyVal.vstr "lab", PyVal.vlist []]),
      ("aliases", PyVal.vnone),
      ("operatingsystemrefs", PyVal.vstr "Windows")]),
   ("relationships", PyVal.vlist [PyVal.vstr "relationships_list"])]

/-- A Unit42 indicator object whose pattern starts with `[domain-name`,
matching both the `domain` and the `domain-name` type keys. -/
def fxU42Dup : Obj :=
  [("pattern", PyVal.vstr "[domain-name:value = x]"), ("name", PyVal.vstr "bad.example"),
   ("id", PyVal.vstr "indicator--1"),
   ("labels", PyVal.vlist [PyVal.vstr "malicious_activity"]),
   ("created", PyVal.vstr "c"), ("modified", PyVal.vstr "m")]

/-- A MITRE relationship object whose source is an intrusion set. -/
def fxIntrusionRel : Obj :=
  [("source_ref", PyVal.vstr "intrusion-set--0"), ("target_ref", PyVal.vstr "malware--0"),
   ("relationship_type", PyVal.vstr "uses")]

/-- An empty Unit42 `objects_data`. -/
def fxOdEmpty : Unit42.ObjectsData := ⟨[], [], [], [], [], [], []⟩

/-! ### Shared lemmas about the Python value model -/

mutual

theorem pyBeq_refl : ∀ a : PyVal, pyBeq a a = true
  | PyVal.vnone => rfl
  | PyVal.vbool b => by simp [pyBeq]
  | PyVal.vint n => by simp [pyBeq]
  | PyVal.vstr s => by simp [pyBeq]
  | PyVal.vlist l => by simp [pyBeq, pyListBeq_refl l]
  | PyVal.vdict d => by simp [pyBeq, pyDictBeq_refl d]

theorem pyListBeq_refl : ∀ l : List PyVal, pyListBeq l l = true
  | [] => rfl
  | a :: as => by simp [pyListBeq, pyBeq_refl a, pyListBeq_refl as]

theorem pyDictBeq_refl : ∀ d : List (String × PyVal), pyDictBeq d d = true
  | [] => rfl
  | (k, v) :: rest => by simp [pyDictBeq, pyBeq_refl v, pyDictBeq_refl rest]

end

/-- A value reported absent by `pyContains` is not a member. -/
theorem not_mem_of_pyContains_eq_false {xs : List PyVal} {x : PyVal}
    (h : pyContains xs x = false) : x ∉ xs := by
  intro hmem
  have : pyContains xs x = true := by
    simp only [pyContains, List.any_eq_true]
    exact ⟨x, hmem, pyBeq_refl x⟩
  simp [this] at h

/-- `dictSet` leaves the binding of every other key unchanged. -/
theorem pyFind_dictSet_ne (d : Obj) (key key' : String) (v : PyVal) (h : key' ≠ key) :
    pyFind (dictSet d key v) key' = pyFind d key' := by
  have h2 : key ≠ key' := fun hh => h hh.symm
  induction d with
  | nil => simp [dictSet, pyFind, h2]
  | cons kv rest ih =>
    obtain ⟨k0, w⟩ := kv
    by_cases hk : k0 = key
    · subst hk
      simp [dictSet, pyFind, h2]
    · simp [dictSet, hk, pyFind, ih]

/-- `pyGet` version of `pyFind_dictSet_ne`. -/
theorem pyGet_dictSet_ne (d : Obj) (key key' : String) (v : PyVal) (h : key' ≠ key) :
    pyGet (dictSet d key v) key' = pyGet d key' := by
  simp [pyGet, pyFind_dictSet_ne d key key' v h]

/-- Writing the `relationships` field on an indicator does not change its
raw source object. -/
theorem rawOf_dictSet_relationships (ind : Obj) (v : PyVal) :
    rawOf (dictSet ind "relationships" v) = rawOf ind := by
  simp [rawOf, pyGet_dictSet_ne ind "relationships" "rawJSON" v (by decide)]

/-- The raw source object of the indicator dict assembled by the MITRE
`build_iterator`. -/
theorem rawOf_indicator (value score itype : PyVal) (item : Obj) (fields : PyVal) :
    rawOf [("value", value), ("score", score), ("type", itype),
           ("rawJSON", PyVal.vdict item), ("fields", fields)] = item := by
  simp [rawOf, pyGet, pyFind]

/-- Nodup is preserved by appending one fresh element. -/
theorem nodup_append_singleton {α : Type} {l : List α} {a : α}
    (hl : l.Nodup) (ha : a ∉ l) : (l ++ [a]).Nodup := by
  induction l with
  | nil => simp
  | cons x xs ih =>
    simp only [List.nodup_cons] at hl
    simp only [List.mem_cons, not_or] at ha
    simp only [List.cons_append, List.nodup_cons, List.mem_append, List.mem_singleton]
    refine ⟨?_, ih hl.2 ha.2⟩
    rintro (hx | hx)
    · exact hl.1 hx
    · exact ha.1 hx.symm

/-- The `build_iterator` loop invariant: the emitted indicators carry
pairwise-distinct source ids, every emitted id is recorded in
`mitre_id_list`, no emitted indicator is deprecated/revoked, and
`counter` counts exactly the emitted indicators. -/
def MitreGood (st : Mitre.MitreState) : Prop :=
  (st.indicators.map rawId).Nodup ∧
  (∀ v ∈ st.indicators.map rawId, v ∈ st.mitre_id_list) ∧
  (∀ ind ∈ st.indicators, Mitre.is_indicator_deprecated_or_revoked (rawOf ind) = false) ∧
  st.indicators.length = st.counter

/-- `processItem` preserves the loop invariant. -/
theorem processItem_good {tags : List PyVal} {tlp : Option String}
    {st st' : Mitre.MitreState} {item : Obj} (hg : MitreGood st)
    (h : Mitre.processItem tags tlp st item = some st') : MitreGood st' := by
  unfold Mitre.processItem at h
  by_cases hc : pyContains st.mitre_id_list (pyGet item "id") = true
  · rw [if_pos hc] at h
    cases h; exact hg
  · rw [if_neg hc] at h
    rw [Bool.not_eq_true] at hc
    simp only [] at h
    by_cases ht : pyBeq (Mitre.mitreTypeGet (pyGet item "type")) (PyVal.vstr "Relationship") = true
    · rw [if_pos ht] at h
      by_cases hrv : pyBeq (pyGet item "relationship_type") (PyVal.vstr "revoked-by") = true
      · rw [if_pos hrv] at h
        cases h; exact hg
      · rw [if_neg hrv] at h
        cases hcr : Mitre.create_relationship item with
        | none => rw [hcr] at h; exact absurd h (by simp)
        | some rel =>
          rw [hcr] at h
          dsimp only at h
          cases h
          exact ⟨hg.1, fun v hv => List.mem_append_left _ (hg.2.1 v hv), hg.2.2.1, hg.2.2.2⟩
    · rw [if_neg ht] at h
      by_cases hdep : Mitre.is_indicator_deprecated_or_revoked item = true
      · rw [if_pos hdep] at h
        cases h; exact hg
      · rw [if_neg hdep] at h
        rw [Bool.not_eq_true] at hdep
        cases hmf : Mitre.map_fields_by_type (Mitre.mitreTypeGet (pyGet item "type")) item with
        | none => rw [hmf] at h; exact absurd h (by simp)
        | some fields0 =>
          rw [hmf] at h
          dsimp only at h
          cases hat : Mitre.appendTagsField fields0 tags with
          | none => rw [hat] at h; exact absurd h (by simp)
          | some fields1 =>
            rw [hat] at h
            dsimp only at h
            cases h
            obtain ⟨hnd, hmem, hdep0, hlen⟩ := hg
            have hid : pyGet item "id" ∉ st.mitre_id_list :=
              not_mem_of_pyContains_eq_false hc
            refine ⟨?_, ?_, ?_, ?_⟩
            · rw [List.map_append]
              refine nodup_append_singleton hnd ?_
              simp only [List.map_cons, List.map_nil, List.mem_singleton, rawId,
                rawOf_indicator]
              intro hin
              exact hid (hmem _ (by simpa [rawId] using hin))
            · intro v hv
              rw [List.map_append, List.mem_append] at hv
              rcases hv with hv | hv
              · exact List.mem_append_left _ (hmem v hv)
              · simp only [List.map_cons, List.map_nil, List.mem_singleton, rawId,
                  rawOf_indicator] at hv
                subst hv
                simp
            · intro ind hind
              rw [List.mem_append] at hind
              rcases hind with hind | hind
              · exact hdep0 ind hind
              · rw [List.mem_singleton] at hind
                subst hind
                rw [rawOf_indicator]
                exact hdep
            · simp [hlen]

/-- `processItems` preserves the loop invariant. -/
theorem processItems_good {tags : List PyVal} {tlp : Option String} {limit : Int} :
    ∀ {items : List Obj} {st st' : Mitre.MitreState}, MitreGood st →
      Mitre.processItems tags tlp limit st items = some st' → MitreGood st'
  | [], st, st', hg, h => by cases h; exact hg
  | item :: rest, st, st', hg, h => by
    unfold Mitre.processItems at h
    by_cases hl : Mitre.hitLimit limit st.counter = true
    · rw [if_pos hl] at h; cases h; exact hg
    · rw [if_neg hl] at h
      cases hp : Mitre.processItem tags tlp st item with
      | none => rw [hp] at h; exact absurd h (by simp)
      | some st2 =>
        rw [hp] at h
        exact processItems_good (processItem_good hg hp) h

/-- `processQueries` preserves the loop invariant. -/
theorem processQueries_good {tags : List PyVal} {tlp : Option String} {limit : Int} :
    ∀ {qs : List (Except Unit (List Obj))} {st st' : Mitre.MitreState}, MitreGood st →
      Mitre.processQueries tags tlp limit st qs = some st' → MitreGood st'
  | [], st, st', hg, h => by cases h; exact hg
  | q :: rest, st, st', hg, h => by
    unfold Mitre.processQueries at h
    by_cases hl : Mitre.hitLimit limit st.counter = true
    · rw [if_pos hl] at h; cases h; exact hg
    · rw [if_neg hl] at h
      cases q with
      | error e => exact processQueries_good hg h
      | ok objs =>
        dsimp only at h
        cases hp : Mitre.processItems tags tlp limit st objs with
        | none => rw [hp] at h; exact absurd h (by simp)
        | some st2 =>
          rw [hp] at h
          exact processQueries_good (processItems_good hg hp) h

/-- `processCollections` preserves the loop invariant. -/
theorem processCollections_good {tags : List PyVal} {tlp : Option String} {limit : Int} :
    ∀ {cs : List Mitre.MitreCollection} {st st' : Mitre.MitreState}, MitreGood st →
      Mitre.processCollections tags tlp limit st cs = some st' → MitreGood st'
  | [], st, st', hg, h => by cases h; exact hg
  | c :: rest, st, st', hg, h => by
    unfold Mitre.processCollections at h
    by_cases hl : Mitre.hitLimit limit st.counter = true
    · rw [if_pos hl] at h; cases h; exact hg
    · rw [if_neg hl] at h
      cases hp : Mitre.processQueries tags tlp limit st c.queries with
      | none => rw [hp] at h; exact absurd h (by simp)
      | some st2 =>
        rw [hp] at h
        exact processCollections_good (processQueries_good hg hp) h

/-- One item increments the counter by at most one. -/
theorem processItem_counter {tags : List PyVal} {tlp : Option String}
    {st st' : Mitre.MitreState} {item : Obj}
    (h : Mitre.processItem tags tlp st item = some st') :
    st'.counter ≤ st.counter + 1 := by
  unfold Mitre.processItem at h
  by_cases hc : pyContains st.mitre_id_list (pyGet item "id") = true
  · rw [if_pos hc] at h; cases h; exact Nat.le_succ _
  · rw [if_neg hc] at h
    simp only [] at h
    by_cases ht : pyBeq (Mitre.mitreTypeGet (pyGet item "type")) (PyVal.vstr "Relationship") = true
    · rw [if_pos ht] at h
      by_cases hrv : pyBeq (pyGet item "relationship_type") (PyVal.vstr "revoked-by") = true
      · rw [if_pos hrv] at h; cases h; exact Nat.le_succ _
      · rw [if_neg hrv] at h
        cases hcr : Mitre.create_relationship item with
        | none => rw [hcr] at h; exact absurd h (by simp)
        | some rel => rw [hcr] at h; dsimp only at h; cases h; exact Nat.le_succ _
    · rw [if_neg ht] at h
      by_cases hdep : Mitre.is_indicator_deprecated_or_revoked item = true
      · rw [if_pos hdep] at h; cases h; exact Nat.le_succ _
      · rw [if_neg hdep] at h
        cases hmf : Mitre.map_fields_by_type (Mitre.mitreTypeGet (pyGet item "type")) item with
        | none => rw [hmf] at h; exact absurd h (by simp)
        | some fields0 =>
          rw [hmf] at h
          dsimp only at h
          cases hat : Mitre.appendTagsField fields0 tags with
          | none => rw [hat] at h; exact absurd h (by simp)
          | some fields1 => rw [hat] at h; dsimp only at h; cases h; exact Nat.le_refl _

/-- When the limit is positive, `processItems` keeps the counter within
it. -/
theorem processItems_counter {tags : List PyVal} {tlp : Option String} {limit : Int}
    (hL : 0 < limit) :
    ∀ {items : List Obj} {st st' : Mitre.MitreState}, (st.counter : Int) ≤ limit →
      Mitre.processItems tags tlp limit st items = some st' → (st'.counter : Int) ≤ limit
  | [], st, st', hle, h => by cases h; exact hle
  | item :: rest, st, st', hle, h => by
    unfold Mitre.processItems at h
    by_cases hl : Mitre.hitLimit limit st.counter = true
    · rw [if_pos hl] at h; cases h; exact hle
    · rw [if_neg hl] at h
      rw [Bool.not_eq_true] at hl
      simp only [Mitre.hitLimit, Bool.and_eq_false_iff, decide_eq_false_iff_not, not_lt,
        not_le] at hl
      cases hp : Mitre.processItem tags tlp st item with
      | none => rw [hp] at h; exact absurd h (by simp)
      | some st2 =>
        rw [hp] at h
        have h1 := processItem_counter hp
        have h2 : (st2.counter : Int) ≤ limit := by
          rcases hl with hl | hl
          · omega
          · omega
        exact processItems_counter hL h2 h

/-- When the limit is positive, `processQueries` keeps the counter within
it. -/
theorem processQueries_counter {tags : List PyVal} {tlp : Option String} {limit : Int}
    (hL : 0 < limit) :
    ∀ {qs : List (Except Unit (List Obj))} {st st' : Mitre.MitreState},
      (st.counter : Int) ≤ limit →
      Mitre.processQueries tags tlp limit st qs = some st' → (st'.counter : Int) ≤ limit
  | [], st, st', hle, h => by cases h; exact hle
  | q :: rest, st, st', hle, h => by
    unfold Mitre.processQueries at h
    by_cases hl : Mitre.hitLimit limit st.counter = true
    · rw [if_pos hl] at h; cases h; exact hle
    · rw [if_neg hl] at h
      cases q with
      | error e => exact processQueries_counter hL hle h
      | ok objs =>
        dsimp only at h
        cases hp : Mitre.processItems tags tlp limit st objs with
        | none => rw [hp] at h; exact absurd h (by simp)
        | some st2 =>
          rw [hp] at h
          exact processQueries_counter hL (processItems_counter hL hle hp) h

/-- When the limit is positive, `processCollections` keeps the counter
within it. -/
theorem processCollections_counter {tags : List PyVal} {tlp : Option String} {limit : Int}
    (hL : 0 < limit) :
    ∀ {cs : List Mitre.MitreCollection} {st st' : Mitre.MitreState},
      (st.counter : Int) ≤ limit →
      Mitre.processCollections tags tlp limit st cs = some st' → (st'.counter : Int) ≤ limit
  | [], st, st', hle, h => by cases h; exact hle
  | c :: rest, st, st', hle, h => by
    unfold Mitre.processCollections at h
    by_cases hl : Mitre.hitLimit limit st.counter = true
    · rw [if_pos hl] at h; cases h; exact hle
    · rw [if_neg hl] at h
      cases hp : Mitre.processQueries tags tlp limit st c.queries with
      | none => rw [hp] at h; exact absurd h (by simp)
      | some st2 =>
        rw [hp] at h
        exact processCollections_counter hL (processQueries_counter hL hle hp) h

/-- The final step of `build_iterator` only rewrites the `relationships`
field of the first indicator: the raw objects and the length of the
output coincide with those of the loop's final state. -/
theorem build_iterator_shape {tags : List PyVal} {tlp : Option String}
    {colls : List Mitre.MitreCollection} {limit : Int} {out : List Obj}
    (h : Mitre.build_iterator tags tlp colls limit = some out) :
    ∃ st, Mitre.processCollections tags tlp limit ⟨[], [], [], 0⟩ colls = some st ∧
      out.map rawOf = st.indicators.map rawOf ∧ out.length = st.indicators.length := by
  unfold Mitre.build_iterator at h
  cases hp : Mitre.processCollections tags tlp limit ⟨[], [], [], 0⟩ colls with
  | none => rw [hp] at h; exact absurd h (by simp)
  | some st =>
    rw [hp] at h
    dsimp only at h
    refine ⟨st, rfl, ?_⟩
    cases hind : st.indicators with
    | nil => rw [hind] at h; cases h; simp [hind]
    | cons f rest =>
      rw [hind] at h
      dsimp only at h
      cases h
      simp [hind, rawOf_dictSet_relationships]

/-- The initial state satisfies the loop invariant. -/
theorem mitreGood_init : MitreGood ⟨[], [], [], 0⟩ := by
  refine ⟨by simp, by simp, by simp, rfl⟩

/-- The field dicts built by `map_fields_by_type` for the attack-pattern
and intrusion-set indicator types have no `tags` key (their
`mapping_by_type` entries add none and `generic_mapping_fields` has
none). -/
theorem map_fields_no_tags {t : PyVal} {item f : Obj}
    (ht : t = PyVal.vstr "STIX Attack Pattern" ∨ t = PyVal.vstr "Intrusion Set")
    (h : Mitre.map_fields_by_type t item = some f) : pyFind f "tags" = Option.none := by
  unfold Mitre.map_fields_by_type at h
  simp only [bind, Option.bind_eq_some'] at h
  obtain ⟨created, h1, modified, h2, platform, h3, pubs, h4, h⟩ := h
  rcases ht with ht | ht <;> subst ht <;>
    simp only [Mitre.mappingByTypeGet] at h <;> cases h <;>
    simp [List.foldl, dictSet, pyFind]

/-- `map_fields_by_type` always raises for the `Course of Action`
indicator type: either an earlier field computation raises, or
`mapping_by_type.get` yields `None` and `dict.update(None)` raises. -/
theorem map_fields_coa_none {item : Obj} :
    Mitre.map_fields_by_type (PyVal.vstr "Course of Action") item = Option.none := by
  unfold Mitre.map_fields_by_type
  cases Mitre.handle_multiple_dates_in_one_field "created" (pyGet item "created") with
  | none => rfl
  | some created =>
    cases Mitre.handle_multiple_dates_in_one_field "modified" (pyGet item "modified") with
    | none => rfl
    | some modified =>
      cases pyJoinComma (pyGet item "x_mitre_platforms") with
      | none => rfl
      | some platform =>
        cases Mitre.buildPublications (pyGetD item "external_references" (PyVal.vlist [])) with
        | none => rfl
        | some pubs => rfl

/-- `indicator_obj['fields']['tags']` raises `KeyError` when the fields
dict has no `tags` key. -/
theorem appendTagsField_none {f0 : Obj} {tags : List PyVal}
    (h : pyFind f0 "tags" = Option.none) :
    Mitre.appendTagsField f0 tags = Option.none := by
  unfold Mitre.appendTagsField
  rw [h]

/-! ### Claim theorems -/

/-- C1 (amended): in the MITRE `build_iterator`, no two indicators in the
output share the same source STIX `id` — deduplication is keyed on the
object's `id` via `mitre_id_list`. (The Unit42 `parse_indicators` path
performs no deduplication; see the counterexample.) -/
theorem c1_mitre_output_ids_nodup {tags : List PyVal} {tlp : Option String}
    {colls : List Mitre.MitreCollection} {limit : Int} {out : List Obj}
    (h : Mitre.build_iterator tags tlp colls limit = some out) :
    (out.map rawId).Nodup := by
  obtain ⟨st, hp, hraw, _⟩ := build_iterator_shape h
  have hg := processCollections_good mitreGood_init hp
  have key : out.map rawId = st.indicators.map rawId := by
    have h2 := congrArg (List.map (fun d : Obj => pyGet d "id")) hraw
    simpa [List.map_map, Function.comp, rawId] using h2
  rw [key]
  exact hg.1

/-- Witness for C1 at a concrete input: the fetched data holds a revoked
and a valid malware object; the output ids are pairwise distinct. -/
theorem c1_mitre_output_ids_nodup_witness :
    Mitre.build_iterator [] Option.none [fxColl] (-1) = some [fxMalwareIndicator] ∧
    ([fxMalwareIndicator].map rawId).Nodup :=
  have h : Mitre.build_iterator [] Option.none [fxColl] (-1) = some [fxMalwareIndicator] := by
    rfl
  ⟨h, c1_mitre_output_ids_nodup h⟩

/-- Counterexample for C1 as stated: in the Unit42 `parse_indicators`
path a single indicator object whose pattern begins `[domain-name`
matches both the `domain` and the `domain-name` type keys and is emitted
twice, so two output indicators share the source STIX id
`indicator--1`. -/
theorem c1_unit42_duplicate_ids_counterexample :
    (Unit42.parse_indicators [fxU42Dup] [] Option.none).map (fun l => l.map rawId)
      = some [PyVal.vstr "indicator--1", PyVal.vstr "indicator--1"] ∧
    ¬ ([PyVal.vstr "indicator--1", PyVal.vstr "indicator--1"].Nodup) := by
  exact ⟨rfl, by simp⟩

/-- C2: every fetched object flagged deprecated or revoked (truthy
`x_mitre_deprecated` or `revoked`) never appears as an indicator in the
output of the MITRE `build_iterator`: every output indicator's raw
source object is unflagged. -/
theorem c2_deprecated_never_in_output {tags : List PyVal} {tlp : Option String}
    {colls : List Mitre.MitreCollection} {limit : Int} {out : List Obj}
    (h : Mitre.build_iterator tags tlp colls limit = some out) :
    ∀ ind ∈ out, Mitre.is_indicator_deprecated_or_revoked (rawOf ind) = false := by
  obtain ⟨st, hp, hraw, _⟩ := build_iterator_shape h
  have hg := processCollections_good mitreGood_init hp
  intro ind hind
  have hmem : rawOf ind ∈ st.indicators.map rawOf := by
    rw [← hraw]
    exact List.mem_map_of_mem rawOf hind
  obtain ⟨ind', hind', heq⟩ := List.mem_map.1 hmem
  rw [← heq]
  exact hg.2.2.1 ind' hind'

/-- Witness for C2 at a concrete input: the fetch returns a revoked and a
valid object; the only output indicator is the valid one and its raw
object is unflagged. -/
theorem c2_deprecated_never_in_output_witness :
    Mitre.build_iterator [] Option.none [fxColl] (-1) = some [fxMalwareIndicator] ∧
    Mitre.is_indicator_deprecated_or_revoked (rawOf fxMalwareIndicator) = false :=
  have h : Mitre.build_iterator [] Option.none [fxColl] (-1) = some [fxMalwareIndicator] := by
    rfl
  ⟨h, c2_deprecated_never_in_output h fxMalwareIndicator (List.mem_singleton_self _)⟩

/-- Counterexample for C5 as stated: with limit 1 and the fetched malware
list `[fxRevoked, fxMalware]`, the revoked object does NOT increment the
count compared against `limit` — the valid object that follows it is
still emitted (under the claim, the revoked object would have exhausted
the limit and the output would be empty). -/
theorem c5_deprecated_counted_counterexample :
    Mitre.build_iterator [] Option.none [fxColl] 1 = some [fxMalwareIndicator] ∧
    rawId fxMalwareIndicator = PyVal.vstr "malware--1" :=
  ⟨rfl, rfl⟩

/-- C5 (amended): a fetched object flagged deprecated or revoked (and not
of the mapped `Relationship` type) is skipped by `continue` before
`counter += 1`: it is excluded from the output and leaves the whole
state, including the count compared against `limit`, unchanged. -/
theorem c5_amended_deprecated_not_counted {tags : List PyVal} {tlp : Option String}
    {st : Mitre.MitreState} {item : Obj}
    (hdep : Mitre.is_indicator_deprecated_or_revoked item = true)
    (ht : pyBeq (Mitre.mitreTypeGet (pyGet item "type")) (PyVal.vstr "Relationship") = false) :
    Mitre.processItem tags tlp st item = some st := by
  unfold Mitre.processItem
  by_cases hc : pyContains st.mitre_id_list (pyGet item "id") = true
  · rw [if_pos hc]
  · rw [if_neg hc]
    simp only []
    rw [if_neg (by simp [ht]), if_pos hdep]

/-- Witness for C5's amended claim at a concrete input: processing the
revoked object leaves the state unchanged (counter still 0). -/
theorem c5_amended_deprecated_not_counted_witness :
    Mitre.is_indicator_deprecated_or_revoked fxRevoked = true ∧
    pyBeq (Mitre.mitreTypeGet (pyGet fxRevoked "type")) (PyVal.vstr "Relationship") = false ∧
    Mitre.processItem [] Option.none fxState fxRevoked = some fxState :=
  ⟨rfl, rfl, c5_amended_deprecated_not_counted rfl rfl⟩

/-- C6: for every positive limit, the MITRE `build_iterator` returns at
most `limit` indicators; the single `counter` is threaded across all
collections and all object-type queries, so the bound is global, not per
collection or type. -/
theorem c6_limit_bounds_output {tags : List PyVal} {tlp : Option String}
    {colls : List Mitre.MitreCollection} {limit : Int} {out : List Obj}
    (hL : 0 < limit) (h : Mitre.build_iterator tags tlp colls limit = some out) :
    (out.length : Int) ≤ limit := by
  obtain ⟨st, hp, _, hlen⟩ := build_iterator_shape h
  have hg := processCollections_good mitreGood_init hp
  have hc := processCollections_counter hL (by exact_mod_cast hL.le) hp
  rw [hlen, hg.2.2.2]
  exact hc

/-- Witness for C6 at a concrete input with limit 1. -/
theorem c6_limit_bounds_output_witness :
    (0 : Int) < 1 ∧
    Mitre.build_iterator [] Option.none [fxColl] 1 = some [fxMalwareIndicator] ∧
    (([fxMalwareIndicator] : List Obj).length : Int) ≤ 1 :=
  have h : Mitre.build_iterator [] Option.none [fxColl] 1 = some [fxMalwareIndicator] := by
    rfl
  ⟨by decide, h, c6_limit_bounds_output (by decide) h⟩

/-- C10: a non-deprecated, non-revoked, not-yet-seen fetched object of
type `attack-pattern` or `intrusion-set` (whose field maps carry no
`tags` key, so `indicator_obj['fields']['tags']` raises `KeyError`) or
`course-of-action` (absent from `mapping_by_type`, so
`dict.update(None)` raises `TypeError`) makes the MITRE `build_iterator`
item step raise an uncaught exception: such objects can never be emitted
as indicators. -/
theorem c10_unmappable_types_raise {tags : List PyVal} {tlp : Option String}
    {st : Mitre.MitreState} {item : Obj}
    (htype : pyGet item "type" = PyVal.vstr "attack-pattern" ∨
      pyGet item "type" = PyVal.vstr "intrusion-set" ∨
      pyGet item "type" = PyVal.vstr "course-of-action")
    (hdep : Mitre.is_indicator_deprecated_or_revoked item = false)
    (hid : pyContains st.mitre_id_list (pyGet item "id") = false) :
    Mitre.processItem tags tlp st item = Option.none := by
  unfold Mitre.processItem
  rw [if_neg (by simp [hid])]
  simp only []
  rcases htype with ht | ht | ht <;> rw [ht]
  · rw [if_neg (by decide), if_neg (by simp [hdep])]
    cases hmf : Mitre.map_fields_by_type (Mitre.mitreTypeGet (PyVal.vstr "attack-pattern")) item with
    | none => rfl
    | some f0 =>
      dsimp only
      rw [appendTagsField_none (map_fields_no_tags (Or.inl rfl) hmf)]
  · rw [if_neg (by decide), if_neg (by simp [hdep])]
    cases hmf : Mitre.map_fields_by_type (Mitre.mitreTypeGet (PyVal.vstr "intrusion-set")) item with
    | none => rfl
    | some f0 =>
      dsimp only
      rw [appendTagsField_none (map_fields_no_tags (Or.inr rfl) hmf)]
  · rw [if_neg (by decide), if_neg (by simp [hdep])]
    rw [show Mitre.mitreTypeGet (PyVal.vstr "course-of-action")
        = PyVal.vstr "Course of Action" from rfl]
    rw [map_fields_coa_none]

/-- Witness for C10 at a concrete input: a minimal course-of-action
object makes the item step raise. -/
theorem c10_unmappable_types_raise_witness :
    pyGet fxCoa "type" = PyVal.vstr "course-of-action" ∧
    Mitre.is_indicator_deprecated_or_revoked fxCoa = false ∧
    pyContains fxState.mitre_id_list (pyGet fxCoa "id") = false ∧
    Mitre.processItem [] Option.none fxState fxCoa = Option.none :=
  ⟨rfl, rfl, rfl, c10_unmappable_types_raise (Or.inr (Or.inr rfl)) rfl rfl⟩

/-- C3: `handle_multiple_dates_in_one_field` folds the newline-separated
two-date value to the earliest date for field name `created` and to the
latest for `modified`, in both the MITRE and the Unit42 copy of the
function. -/
theorem c3_handle_multiple_dates_concrete :
    Mitre.handle_multiple_dates_in_one_field "created"
      (PyVal.vstr "2020-01-01T00:00:00.000Z\n2019-01-01T00:00:00.000Z")
      = some "2019-01-01T00:00:00.000Z" ∧
    Mitre.handle_multiple_dates_in_one_field "modified"
      (PyVal.vstr "2020-01-01T00:00:00.000Z\n2019-01-01T00:00:00.000Z")
      = some "2020-01-01T00:00:00.000Z" ∧
    Unit42.handle_multiple_dates_in_one_field "created"
      (PyVal.vstr "2020-01-01T00:00:00.000Z\n2019-01-01T00:00:00.000Z")
      = some "2019-01-01T00:00:00.000Z" ∧
    Unit42.handle_multiple_dates_in_one_field "modified"
      (PyVal.vstr "2020-01-01T00:00:00.000Z\n2019-01-01T00:00:00.000Z")
      = some "2020-01-01T00:00:00.000Z" :=
  ⟨rfl, rfl, rfl, rfl⟩

/-- C4 (amended): in the MITRE `build_iterator`, a query that raises is
caught and skipped silently — processing the failed query outcome is the
same as processing the remaining queries; in the Unit42
`fetch_stix_objects_from_api` there is no exception handling, and a
raised query error propagates to the caller. Neither client retries. -/
theorem c4_amended_query_error_policy :
    (∀ (tags : List PyVal) (tlp : Option String) (limit : Int) (e : Unit)
        (rest : List (Except Unit (List Obj))) (st : Mitre.MitreState),
      Mitre.processQueries tags tlp limit st (Except.error e :: rest)
        = Mitre.processQueries tags tlp limit st rest) ∧
    (∀ (e : Unit) (rest : List (Except Unit (List Obj))),
      Unit42.fetch_stix_objects_from_api (Except.error e :: rest) = Except.error e) := by
  constructor
  · intro tags tlp limit e rest st
    simp only [Mitre.processQueries]
    by_cases hl : Mitre.hitLimit limit st.counter = true
    · rw [if_pos hl]
      cases rest with
      | nil => simp only [Mitre.processQueries]
      | cons q qs => simp only [Mitre.processQueries, if_pos hl]
    · rw [if_neg hl]
  · intro e rest
    rfl

/-- Counterexample for C4 as stated: in the Unit42 client a failing query
outcome is surfaced as an error (the whole fetch raises), not skipped:
with the successful page outcomes around it the fetch would have
returned their objects. -/
theorem c4_unit42_error_propagates_counterexample :
    Unit42.fetch_stix_objects_from_api
      [Except.ok [], Except.error (), Except.ok [fxU42Dup]] = Except.error () ∧
    Unit42.fetch_stix_objects_from_api
      [Except.ok [], Except.ok [fxU42Dup]] = Except.ok [fxU42Dup] :=
  ⟨rfl, rfl⟩

/-- The MITRE publications loop over dict entries computes exactly the
spec-side filter/map. -/
theorem mitre_publicationsLoop_spec :
    ∀ refs : List Obj,
      Mitre.publicationsLoop (refs.map PyVal.vdict) = some (publicationsSpec refs)
  | [] => rfl
  | r :: rest => by
    have ih := mitre_publicationsLoop_spec rest
    simp only [List.map_cons, Mitre.publicationsLoop, Mitre.publicationEntry, bind]
    by_cases h : truthy (pyGet r "external_id") = true
    · simp [h, ih, publicationsSpec, List.filter_cons]
    · simp [h, ih, publicationsSpec, List.filter_cons]

/-- The Unit42 publications loop over dict entries computes exactly the
spec-side filter/map. -/
theorem unit42_publicationsLoop_spec :
    ∀ refs : List Obj,
      Unit42.publicationsLoop (refs.map PyVal.vdict) = some (publicationsSpec refs)
  | [] => rfl
  | r :: rest => by
    have ih := unit42_publicationsLoop_spec rest
    simp only [List.map_cons, Unit42.publicationsLoop, Unit42.publicationEntry, bind]
    by_cases h : truthy (pyGet r "external_id") = true
    · simp [h, ih, publicationsSpec, List.filter_cons]
    · simp [h, ih, publicationsSpec, List.filter_cons]

/-- C7: in both integrations, the publications list built from
`external_references` is exactly the entries without a (truthy)
`external_id`, each reshaped into its Link/Title pair — entries with an
`external_id` are excluded, all others appear. -/
theorem c7_publications_exclude_external_id (refs : List Obj) :
    Mitre.buildPublications (PyVal.vlist (refs.map PyVal.vdict))
      = some (publicationsSpec refs) ∧
    Unit42.buildPublications (PyVal.vlist (refs.map PyVal.vdict))
      = some (publicationsSpec refs) :=
  ⟨mitre_publicationsLoop_spec refs, unit42_publicationsLoop_spec refs⟩

/-- Stepping lemma: `split('--')[0]` keeps a head character that does not
start a `--` separator. -/
theorem firstSegment_cons {c c2 : Char} {rest : List Char} (h : ¬(c = '-' ∧ c2 = '-')) :
    firstSegment (c :: c2 :: rest) = c :: firstSegment (c2 :: rest) := by
  simp only [firstSegment]
  rw [if_neg h]

/-- `split('--')[0]` stops at the separator. -/
theorem firstSegment_dd (rest : List Char) : firstSegment ('-' :: '-' :: rest) = [] := by
  simp [firstSegment]

/-- For any string beginning with `intrusion-set--`, the substring before
the first `--` is `intrusion-set`. -/
theorem firstSegment_intrusion {s : String}
    (h : "intrusion-set--".data.isPrefixOf s.data = true) :
    firstSegment s.data = "intrusion-set".data := by
  obtain ⟨t, ht⟩ := List.isPrefixOf_iff_prefix.mp h
  rw [← ht]
  show firstSegment ('i' :: 'n' :: 't' :: 'r' :: 'u' :: 's' :: 'i' :: 'o' :: 'n' :: '-' ::
    's' :: 'e' :: 't' :: '-' :: '-' :: t) = "intrusion-set".data
  rw [firstSegment_cons (by decide), firstSegment_cons (by decide),
    firstSegment_cons (by decide), firstSegment_cons (by decide),
    firstSegment_cons (by decide), firstSegment_cons (by decide),
    firstSegment_cons (by decide), firstSegment_cons (by decide),
    firstSegment_cons (by decide), firstSegment_cons (by decide),
    firstSegment_cons (by decide), firstSegment_cons (by decide),
    firstSegment_cons (by decide), firstSegment_dd]

/-- C8: a `relationship` object whose `source_ref` begins with
`intrusion-set--` resolves its entity-A type to the value the builder's
type map assigns to the `intrusion-set` prefix: in the MITRE builder
that is the mapped type `Intrusion Set`; in the Unit42 builder the
`RELATIONS_TYPE_TO_DEMISTO_TYPES` map has no `intrusion-set` entry, so
the same lookup yields `None`. -/
theorem c8_intrusion_set_entity_a_type :
    (∀ (item : Obj) (s : String) (r : Obj),
      pyGet item "source_ref" = PyVal.vstr s →
      "intrusion-set--".data.isPrefixOf s.data = true →
      Mitre.create_relationship item = some r →
      pyGet r "entity_a_type" = Mitre.mitreTypeGet (PyVal.vstr "intrusion-set") ∧
      Mitre.mitreTypeGet (PyVal.vstr "intrusion-set") = PyVal.vstr "Intrusion Set") ∧
    (∀ (idm : List (PyVal × PyVal)) (item : Obj) (s : String) (r : Obj),
      pyGet item "source_ref" = PyVal.vstr s →
      "intrusion-set--".data.isPrefixOf s.data = true →
      Unit42.relationshipFor idm item = some r →
      pyGet r "entity_a_type" = Unit42.relationsTypeGet "intrusion-set" ∧
      Unit42.relationsTypeGet "intrusion-set" = PyVal.vnone) := by
  constructor
  · intro item s r hsrc hpre h
    unfold Mitre.create_relationship at h
    rw [hsrc] at h
    cases htgt : pyGet item "target_ref" with
    | vstr tgt =>
      rw [htgt] at h
      dsimp only at h
      cases h
      rw [firstSegment_intrusion hpre]
      exact ⟨rfl, rfl⟩
    | vnone => rw [htgt] at h; exact absurd h (by simp)
    | vbool b => rw [htgt] at h; exact absurd h (by simp)
    | vint n => rw [htgt] at h; exact absurd h (by simp)
    | vlist l => rw [htgt] at h; exact absurd h (by simp)
    | vdict d => rw [htgt] at h; exact absurd h (by simp)
  · intro idm item s r hsrc hpre h
    unfold Unit42.relationshipFor at h
    rw [hsrc] at h
    cases htgt : pyGet item "target_ref" with
    | vstr tgt =>
      rw [htgt] at h
      dsimp only at h
      simp only [bind, Option.bind_eq_some'] at h
      obtain ⟨a_type, ha, b_type, hb, h⟩ := h
      unfold Unit42.resolveRefType at ha
      rw [firstSegment_intrusion hpre] at ha
      rw [if_neg (by decide)] at ha
      cases ha
      cases h
      exact ⟨rfl, rfl⟩
    | vnone => rw [htgt] at h; exact absurd h (by simp)
    | vbool b => rw [htgt] at h; exact absurd h (by simp)
    | vint n => rw [htgt] at h; exact absurd h (by simp)
    | vlist l => rw [htgt] at h; exact absurd h (by simp)
    | vdict d => rw [htgt] at h; exact absurd h (by simp)

/-- Witness for C8 at a concrete relationship object, through both
builders. -/
theorem c8_intrusion_set_entity_a_type_witness :
    pyGet fxIntrusionRel "source_ref" = PyVal.vstr "intrusion-set--0" ∧
    "intrusion-set--".data.isPrefixOf "intrusion-set--0".data = true ∧
    (∃ r, Mitre.create_relationship fxIntrusionRel = some r ∧
      pyGet r "entity_a_type" = Mitre.mitreTypeGet (PyVal.vstr "intrusion-set")) ∧
    (∃ r, Unit42.relationshipFor [] fxIntrusionRel = some r ∧
      pyGet r "entity_a_type" = Unit42.relationsTypeGet "intrusion-set") := by
  refine ⟨rfl, by decide, ?_, ?_⟩
  · exact ⟨_, rfl, (c8_intrusion_set_entity_a_type.1 fxIntrusionRel "intrusion-set--0" _
      rfl (by decide) rfl).1⟩
  · exact ⟨_, rfl, (c8_intrusion_set_entity_a_type.2 [] fxIntrusionRel "intrusion-set--0" _
      rfl (by decide) rfl).1⟩

/-- Indicators built by `parse_indicators` carry no `relationships` key. -/
theorem indicatorFor_no_rel (o : Obj) (ty : String) (tg : List PyVal) (tlp : Option String) :
    pyFind (Unit42.indicatorFor o ty tg tlp) "relationships" = Option.none := by
  unfold Unit42.indicatorFor
  simp [pyFind]

/-- No output of `parse_indicators` carries a `relationships` key. -/
theorem parse_indicators_no_rel :
    ∀ {objs : List Obj} {tags : List PyVal} {tlp : Option String} {out : List Obj},
      Unit42.parse_indicators objs tags tlp = some out →
      ∀ ind ∈ out, pyFind ind "relationships" = Option.none
  | [], tags, tlp, out, h => by
    cases h
    intro ind hind
    simp at hind
  | obj :: rest, tags, tlp, out, h => by
    unfold Unit42.parse_indicators at h
    simp only [bind, Option.bind_eq_some'] at h
    obtain ⟨tail, htail, h⟩ := h
    cases hp : pyGet obj "pattern" with
    | vstr pattern =>
      rw [hp] at h
      simp only [Option.bind_eq_some'] at h
      obtain ⟨tg, htg, h⟩ := h
      cases h
      intro ind hind
      rw [List.mem_append] at hind
      rcases hind with hind | hind
      · simp only [Unit42.matchedIndicators, List.mem_map] at hind
        obtain ⟨kv, _, hkv⟩ := hind
        rw [← hkv]
        exact indicatorFor_no_rel obj kv.2 tg tlp
      · exact parse_indicators_no_rel htail ind hind
    | vnone => rw [hp] at h; exact absurd h (by simp)
    | vbool b => rw [hp] at h; exact absurd h (by simp)
    | vint n => rw [hp] at h; exact absurd h (by simp)
    | vlist l => rw [hp] at h; exact absurd h (by simp)
    | vdict d => rw [hp] at h; exact absurd h (by simp)

/-- No output of `parse_reports` carries a `relationships` key. -/
theorem parse_reports_no_rel :
    ∀ {objs : List Obj} {tags : List PyVal} {tlp : Option String} {out : List Obj},
      Unit42.parse_reports objs tags tlp = some out →
      ∀ ind ∈ out, pyFind ind "relationships" = Option.none
  | [], tags, tlp, out, h => by
    cases h
    intro ind hind
    simp at hind
  | obj :: rest, tags, tlp, out, h => by
    unfold Unit42.parse_reports at h
    simp only [bind, Option.bind_eq_some'] at h
    obtain ⟨tail, htail, tg, htg, h⟩ := h
    cases h
    intro ind hind
    rcases List.mem_cons.mp hind with hind | hind
    · subst hind
      simp [pyFind]
    · exact parse_reports_no_rel htail ind hind

/-- Attack-pattern indicators carry no `relationships` key. -/
theorem attackPatternIndicator_no_rel {coa : List (PyVal × PyVal)} {ft : List PyVal}
    {tlp : Option String} {ai ind : Obj}
    (h : Unit42.attackPatternIndicator coa ft tlp ai = some ind) :
    pyFind ind "relationships" = Option.none := by
  unfold Unit42.attackPatternIndicator at h
  simp only [bind, Option.bind_eq_some'] at h
  obtain ⟨pubs, h1, fs, h2, md, h3, coaf, h4, h⟩ := h
  cases h
  simp [pyFind]

/-- No output of the attack-pattern loop carries a `relationships` key. -/
theorem attackPatternLoop_no_rel :
    ∀ {coa : List (PyVal × PyVal)} {ft : List PyVal} {tlp : Option String}
      {objs out : List Obj},
      Unit42.attackPatternLoop coa ft tlp objs = some out →
      ∀ ind ∈ out, pyFind ind "relationships" = Option.none
  | coa, ft, tlp, [], out, h => by
    cases h
    intro ind hind
    simp at hind
  | coa, ft, tlp, obj :: rest, out, h => by
    unfold Unit42.attackPatternLoop at h
    simp only [bind, Option.bind_eq_some'] at h
    obtain ⟨i0, h1, tail, h2, h⟩ := h
    cases h
    intro ind hind
    rcases List.mem_cons.mp hind with hind | hind
    · subst hind
      exact attackPatternIndicator_no_rel h1
    · exact attackPatternLoop_no_rel h2 ind hind

/-- No output of `create_attack_pattern_indicator` carries a
`relationships` key. -/
theorem create_attack_pattern_no_rel {relObjs apObjs : List Obj} {ft : List PyVal}
    {tlp : Option String} {out : List Obj}
    (h : Unit42.create_attack_pattern_indicator relObjs apObjs ft tlp = some out) :
    ∀ ind ∈ out, pyFind ind "relationships" = Option.none := by
  unfold Unit42.create_attack_pattern_indicator at h
  simp only [bind, Option.bind_eq_some'] at h
  obtain ⟨coa, h1, h2⟩ := h
  exact attackPatternLoop_no_rel h2

/-- C9: when relationship creation is enabled, `fetch_indicators`
attaches the entire built relationship list to exactly one placeholder
indicator with value `$$DummyIndicator$$` appended to the parsed
indicator list inside the output, and to nothing else: no other output
element carries a `relationships` field. -/
theorem c9_relationships_on_single_dummy {od : Unit42.ObjectsData} {tags : List PyVal}
    {tlp : Option String} {out : List Obj}
    (h : Unit42.fetch_indicators od tags tlp true = some out) :
    ∃ inds reports attacks idm rels,
      Unit42.parse_indicators od.indicator tags tlp = some inds ∧
      Unit42.parse_reports od.report tags tlp = some reports ∧
      Unit42.create_attack_pattern_indicator od.relationship od.attackPattern tags tlp
        = some attacks ∧
      Unit42.buildIdToObject (od.report ++ od.indicator ++ od.malware ++ od.campaign ++
        od.attackPattern ++ od.courseOfAction) = some idm ∧
      Unit42.create_list_relationships od.relationship idm = some rels ∧
      out = inds ++
        [[("value", PyVal.vstr "$$DummyIndicator$$"),
          ("relationships", PyVal.vlist (rels.map PyVal.vdict))]] ++ reports ++ attacks ∧
      ∀ ind ∈ inds ++ reports ++ attacks, pyFind ind "relationships" = Option.none := by
  unfold Unit42.fetch_indicators at h
  simp only [if_true, bind, Option.bind_eq_some'] at h
  obtain ⟨inds, h1, reports, h2, attacks, h3, idm, h4, rels, hrels, a, ha, hout⟩ := h
  cases ha
  cases hout
  refine ⟨inds, reports, attacks, idm, rels, h1, h2, h3, h4, hrels, rfl, ?_⟩
  intro ind hind
  rw [List.mem_append, List.mem_append] at hind
  rcases hind with (hind | hind) | hind
  · exact parse_indicators_no_rel h1 ind hind
  · exact parse_reports_no_rel h2 ind hind
  · exact create_attack_pattern_no_rel h3 ind hind

/-- Witness for C9 at the empty fetched-object state: the output is
exactly the dummy indicator carrying the (empty) relationship list. -/
theorem c9_relationships_on_single_dummy_witness :
    Unit42.fetch_indicators fxOdEmpty [] Option.none true
      = some [[("value", PyVal.vstr "$$DummyIndicator$$"),
               ("relationships", PyVal.vlist [])]] ∧
    (∃ inds reports attacks idm rels,
      Unit42.parse_indicators fxOdEmpty.indicator [] Option.none = some inds ∧
      Unit42.parse_reports fxOdEmpty.report [] Option.none = some reports ∧
      Unit42.create_attack_pattern_indicator fxOdEmpty.relationship fxOdEmpty.attackPattern
        [] Option.none = some attacks ∧
      Unit42.buildIdToObject (fxOdEmpty.report ++ fxOdEmpty.indicator ++ fxOdEmpty.malware ++
        fxOdEmpty.campaign ++ fxOdEmpty.attackPattern ++ fxOdEmpty.courseOfAction)
        = some idm ∧
      Unit42.create_list_relationships fxOdEmpty.relationship idm = some rels ∧
      [[("value", PyVal.vstr "$$DummyIndicator$$"), ("relationships", PyVal.vlist [])]]
        = inds ++
          [[("value", PyVal.vstr "$$DummyIndicator$$"),
            ("relationships", PyVal.vlist (rels.map PyVal.vdict))]] ++ reports ++ attacks ∧
      ∀ ind ∈ inds ++ reports ++ attacks, pyFind ind "relationships" = Option.none) :=
  have h : Unit42.fetch_indicators fxOdEmpty [] Option.none true
      = some [[("value", PyVal.vstr "$$DummyIndicator$$"),
               ("relationships", PyVal.vlist [])]] := by rfl
  ⟨h, c9_relationships_on_single_dummy h⟩
